import Mathlib

/-!
Verification of the telegram survey / admin bot repository.

This file gives a shallow embedding, in Lean, of the conversation
state machines and the spreadsheet-backed persistence layer of the
two bots (`questionnaire_bot.py` and `admin_bot.py`), and proves or
refutes the specification claims about them.

Modelling conventions:
* a spreadsheet row is a `List String` of cell values;
* the submission log (worksheet `sheet1`) is a `List Row`;
* the questions worksheet is its column A, a `List String` of cells
  with no trailing empty cells (mirroring what `col_values` returns);
* fallible external reads are `Option` values: `none` is the
  exception path (store unreachable, auth failure, bad file);
* handlers are pure functions from their inputs and the ambient
  store state to the next conversation state, the updated session
  data, the updated store, and the list of reply texts sent.
-/

namespace TelegramBot

/-- Row of a spreadsheet: the list of its cell values. -/
abbrev Row := List String

/-- Fixed rating alphabet of the survey bot (worst to best, values 1..5). -/
def RATING_EMOJIS : List String := ["😠", "😞", "😐", "🙂", "😄"]

/-- Embedding of `QuestionnaireBot.load_questions`: read the local
questions.json file; any failure (missing file, bad JSON) yields the
empty list.  The file content is modelled as `Option (List String)`,
with `none` the failure path. -/
def load_questions (file : Option (List String)) : List String := file.getD []

/-- Model of the Python str.strip() call: drop leading and trailing
whitespace characters. -/
def pyStrip (s : String) : String :=
  ⟨((s.data.dropWhile Char.isWhitespace).reverse.dropWhile
      Char.isWhitespace).reverse⟩

/-- Reply sent by `handle_rating` on an input outside the rating alphabet. -/
def MSG_INVALID_RATING : String := "❌ እባክዎ ከታች ያሉትን ኢሞጂዎች ብቻ ይጠቀሙ።"

/-- Reply sent by `handle_rating` when the survey completes. -/
def MSG_COMPLETED : String := "✅ እናመሰግናለን! ቃለ-መጠይቁን ጨርሰዋል። መረጃዎንም ተቀብለናል። 🎉"

/-- Reply sent by `get_phone` when the question list is empty. -/
def MSG_NO_QUESTIONS : String := "❌ ምንም ጥያቄዎች አልተገኙም።"

/-- Rendered text of question number `i` (0-based), as sent by
`get_phone` (first question) and `handle_rating` (subsequent ones). -/
def renderQuestion (i : Nat) (q : String) : String :=
  "✨ <b>Q" ++ toString (i + 1) ++ ":</b> " ++ q

/-- Session data of the survey conversation (`context.user_data`). -/
structure UserData where
  user_id : String := ""
  name : String := ""
  phone : String := ""
  ratings : List Nat := []
  current_question : Nat := 0
deriving DecidableEq, Repr

/-- Expected header tuple of the submission log for `n` questions. -/
def expected_headers (n : Nat) : List String :=
  ["UserID", "Name", "Phone", "Timestamp"] ++
    (List.range n).map (fun i => "Q" ++ toString (i + 1))

/-- Embedding of module-level `append_to_sheet` in `questionnaire_bot.py`.
It inspects row 1 of the submission log: when the row is missing or its
first cell differs from the literal UserID, a header row (whose width
comes from the local questions file) is inserted at row 1 (appended when
the sheet is empty); afterwards the submission row is appended.
`ts` stands for the wall-clock timestamp string. -/
def append_to_sheet (file : Option (List String)) (user_id : String)
    (ud : UserData) (ratings : List Nat) (ts : String) (sheet : List Row) :
    List Row :=
  let first_row : Row := (sheet.head?).getD []
  let withHeader : List Row :=
    if first_row.head? = some "UserID" then sheet
    else
      let questions := load_questions file
      let headers := expected_headers questions.length
      if first_row.isEmpty then sheet ++ [headers]
      else headers :: sheet
  let row : Row := [user_id, ud.name, ud.phone, ts] ++ ratings.map toString
  withHeader ++ [row]

/-- Value of key `key` in a record built by get_all_records from a
header row and a data row: the cell under the first header cell equal
to `key`, the empty string when the data row is shorter, and the
string None (Python str of the missing value) when the header lacks
the key. -/
def recordGet : List String → List String → String → String
  | [], _, _ => "None"
  | h :: hs, row, key =>
    if h == key then (row.head?).getD "" else recordGet hs row.tail key

/-- Embedding of `QuestionnaireBot.has_user_submitted`: read all records
of the submission log and scan the UserID column.  `readRes` is the
result of the remote read, `none` being the exception path, which the
code converts to `false` (fails open). -/
def has_user_submitted (readRes : Option (List Row)) (user_id : String) :
    Bool :=
  match readRes with
  | none => false
  | some rows =>
    match rows with
    | [] => false
    | hdr :: dataRows =>
      dataRows.any (fun r => recordGet hdr r "UserID" == user_id)

/-- Outcome of the `/start` entry command of the survey bot. -/
inductive StartResult where
  /-- The conversation continues: the user id is stored in the session
  and the NAME state is entered. -/
  | enterName (user_id : String)
  /-- ConversationHandler.END is returned before any state is entered. -/
  | refuse
deriving DecidableEq, Repr

/-- Embedding of `QuestionnaireBot.start`: duplicate check against the
submission log, refusing re-entry when the user already submitted. -/
def start (readRes : Option (List Row)) (user_id : String) : StartResult :=
  if has_user_submitted readRes user_id then .refuse else .enterName user_id

/-- Conversation value returned by a rating-state handler. -/
inductive SurveyStep where
  /-- Stay in (or remain routed to) the RATINGS state. -/
  | ratings
  /-- ConversationHandler.END. -/
  | done
deriving DecidableEq, Repr

/-- Embedding of `QuestionnaireBot.get_phone`: store the phone text,
reset the rating accumulator and question index, then load the
question list; abort when it is empty, otherwise render question 1
and enter the RATINGS state. -/
def get_phone (file : Option (List String)) (text : String) (ud : UserData) :
    SurveyStep × UserData × List String :=
  let ud1 : UserData :=
    { ud with phone := text, ratings := [], current_question := 0 }
  let questions := load_questions file
  match questions with
  | [] => (.done, ud1, [MSG_NO_QUESTIONS])
  | q :: _ => (.ratings, ud1, [renderQuestion 0 q])

/-- Embedding of `QuestionnaireBot.handle_rating`.  Note that the
question list is re-loaded from the local file on every invocation;
the session stores only the index and the accumulated ratings.
Returns (conversation value, session data, submission log, replies). -/
def handle_rating (file : Option (List String)) (text : String)
    (ud : UserData) (sheet : List Row) (ts : String) :
    SurveyStep × UserData × List Row × List String :=
  let rating_text := pyStrip text
  let questions := load_questions file
  if RATING_EMOJIS.contains rating_text then
    let rating := RATING_EMOJIS.indexOf rating_text + 1
    let ud1 : UserData :=
      { ud with ratings := ud.ratings ++ [rating],
                current_question := ud.current_question + 1 }
    let current_q := ud1.current_question
    if questions.length ≤ current_q then
      let sheet1 := append_to_sheet file ud1.user_id ud1 ud1.ratings ts sheet
      (.done, {}, sheet1, [MSG_COMPLETED])
    else
      (.ratings, ud1, sheet,
        [renderQuestion current_q (questions.getD current_q "")])
  else
    (.ratings, ud, sheet, [MSG_INVALID_RATING])

/-- Numeric value the bot assigns to a valid rating input. -/
def ratingOf (s : String) : Nat := RATING_EMOJIS.indexOf (pyStrip s) + 1

/-- Iterated dispatch of the RATINGS state: feed a list of message
texts, one per `handle_rating` invocation, stopping when the
conversation ends.  Replies are discarded. -/
def runRatings (file : Option (List String)) (ts : String) :
    List String → UserData → List Row → SurveyStep × UserData × List Row
  | [], ud, sheet => (.ratings, ud, sheet)
  | text :: rest, ud, sheet =>
    match handle_rating file text ud sheet ts with
    | (.done, ud1, sheet1, _) => (.done, ud1, sheet1)
    | (.ratings, ud1, sheet1, _) => runRatings file ts rest ud1 sheet1

/-! Admin bot (`admin_bot.py`). -/

/-- Conversation state constants of the admin bot (`range(4)`). -/
def AUTHENTICATE : Nat := 0

/-- Admin menu state. -/
def ADMIN_MENU : Nat := 1

/-- Question management state. -/
def EDIT_QUESTIONS : Nat := 2

/-- Modal state awaiting the text of a new or replacement question. -/
def NEW_QUESTION : Nat := 3

/-- Telegram user identity as the handlers see it. -/
structure TgUser where
  id : Nat
  username : Option String
deriving DecidableEq, Repr

/-- Contents of the admin_users.json allow-list file. -/
structure AdminData where
  admin_usernames : List String
  admin_user_ids : List Nat
deriving DecidableEq, Repr

/-- Model of the Python str.lower() call (character-wise lowering). -/
def pyLower (s : String) : String := ⟨s.data.map Char.toLower⟩

/-- Embedding of `AdminBot.load_admin_users`: read the allow-list file,
returning the empty allow-list on any failure (`none`). -/
def load_admin_users (file : Option AdminData) : AdminData :=
  file.getD { admin_usernames := [], admin_user_ids := [] }

/-- Embedding of `AdminBot.is_user_admin`: membership by numeric id or
by case-insensitive username. -/
def is_user_admin (file : Option AdminData) (user : TgUser) : Bool :=
  let admin_data := load_admin_users file
  let user_username := pyLower ((user.username).getD "")
  admin_data.admin_user_ids.contains user.id ||
    (admin_data.admin_usernames.map pyLower).contains user_username

/-- Embedding of `AdminBot.add_admin_user` (the pure allow-list update,
before the file write): append the id if absent, then append the
username if present, non-empty and not already present up to case. -/
def add_admin_user (file : Option AdminData) (user_id : Nat)
    (username : Option String) : AdminData :=
  let admin_data := load_admin_users file
  let d1 : AdminData :=
    if admin_data.admin_user_ids.contains user_id then admin_data
    else { admin_data with
             admin_user_ids := admin_data.admin_user_ids ++ [user_id] }
  match username with
  | none => d1
  | some u =>
    if u ≠ "" ∧ ¬ (d1.admin_usernames.map pyLower).contains (pyLower u) then
      { d1 with admin_usernames := d1.admin_usernames ++ [u] }
    else d1

/-- Shared secret checked by the authentication handler. -/
def ADMIN_PASSWORD : String := "admin123"

/-- Embedding of `AdminBot.authenticate`: on the correct password the
allow-list is extended via add_admin_user and persisted (the file write
may fail, modelled by `writeOk`; on failure the persisted file is left
as it was); on a wrong password nothing is written.  Returns the
persisted allow-list after the attempt and the next state. -/
def authenticate (file : Option AdminData) (writeOk : Bool) (user : TgUser)
    (password : String) : AdminData × Nat :=
  if password == ADMIN_PASSWORD then
    let d1 := add_admin_user file user.id user.username
    (if writeOk then d1 else load_admin_users file, ADMIN_MENU)
  else
    (load_admin_users file, AUTHENTICATE)

/-- Column A of the Questions worksheet, as `col_values` returns it (no
trailing empty cells); `none` models an unavailable client or a raised
remote error. -/
abbrev QuestionsCol := Option (List String)

/-- Embedding of `AdminBot.load_questions`: read column A of the
Questions worksheet and strip an optional header literal Question. -/
def aload_questions (store : QuestionsCol) : List String :=
  match store with
  | none => []
  | some data =>
    match data with
    | [] => []
    | c :: rest => if pyLower (pyStrip c) == "question" then rest else c :: rest

/-- Effect on column A of the worksheet update call over the range
A1:A(k) with k cell values: the first k cells are overwritten and every
cell below row k is left untouched. -/
def update_colA (col : List String) (data : List String) : List String :=
  data ++ col.drop data.length

/-- Embedding of `AdminBot.save_questions`: write a header cell and the
question list back over range A1:A(k).  Returns the success flag and
the resulting column. -/
def save_questions (store : QuestionsCol) (questions : List String) :
    Bool × QuestionsCol :=
  match store with
  | none => (false, none)
  | some col => (true, some (update_colA col ("Question" :: questions)))

/-- Session data of the admin conversation (`context.user_data`). -/
structure AUserData where
  editing_mode : Option String := none
  editing_index : Option Nat := none
  deleting_index : Option Nat := none
deriving DecidableEq, Repr

/-- Callback tokens carried by the admin bot's inline keyboards:
edit_(i), delete_(i), confirm_delete, cancel_delete, cancel_edit. -/
inductive CallbackData where
  | editToken (i : Nat)
  | deleteToken (i : Nat)
  | confirmDelete
  | cancelDelete
  | cancelEdit
deriving DecidableEq, Repr

/-- Reply shown when a non-allow-listed user hits a guarded handler. -/
def MSG_NOT_ADMIN : String := "❌ አስተዳዳሪ መሆን አይችሉም!"

/-- Reply shown for a missing or out-of-range stored selection index. -/
def MSG_INVALID_SELECTION : String := "❌ ልክ ያልሆነ ጥያቄ መረጃ!"

/-- Question management menu text (sent by return_to_question_management
and by the menu branch of admin_panel). -/
def MSG_MGMT_MENU : String := "❓ የጥያቄ አስተዳደር\n\nየሚፈልጉትን አይነት ለውጥ ይምረጡ:"

/-- Reply confirming a deletion, echoing the removed question. -/
def MSG_DELETED (q : String) : String := "✅ ጥያቄ ተሰርዟል:\n\n" ++ q

/-- Reply for a failed save during deletion. -/
def MSG_DELETE_FAILED : String := "❌ ጥያቄ ሲሰረዝ ስህተት ተፈጥሯል!"

/-- Reply for a cancelled inline operation. -/
def MSG_CANCELLED : String := "❌ ስራው ተቋርጧል።"

/-- Prompt asking for the replacement text of question `index`. -/
def editPrompt (index : Nat) (q : String) : String :=
  "✏️ ጥያቄ ለመቀየር\n\nእባክዎ አዲስ ጥያቄ ያስገቡ ለ ጥያቄ #" ++ toString (index + 1) ++
    ":\n\nአሁን ያለው: " ++ q

/-- Prompt asking to confirm deletion of question text `q`. -/
def deletePrompt (q : String) : String :=
  "🗑️ ጥያቄ ለመሰረዝ\n\nይህን ጥያቄ ለመሰረዝ እርግጠኛ ነዎት?\n\n" ++ q

/-- Embedding of `AdminBot.handle_callback_query`.  The inline-selection
resolutions for edit_(i) and delete_(i) index the freshly loaded
question list without a bounds check (Python `questions[index]`), so an
out-of-range index raises IndexError: that path is `Except.error ()`.
Only the confirm_delete branch validates the stored index.  The handler
never consults the allow-list; `user` is received (in `update`) but
unused.  Returns (state, session, store, replies) on the normal path. -/
def handle_callback_query (store : QuestionsCol) (user : TgUser)
    (ud : AUserData) (data : CallbackData) :
    Except Unit (Nat × AUserData × QuestionsCol × List String) :=
  let questions := aload_questions store
  match data with
  | .editToken index =>
    match questions.get? index with
    | none => .error ()
    | some q =>
      .ok (NEW_QUESTION,
        { ud with editing_index := some index, editing_mode := some "edit" },
        store, [editPrompt index q])
  | .deleteToken index =>
    match questions.get? index with
    | none => .error ()
    | some q =>
      .ok (EDIT_QUESTIONS, { ud with deleting_index := some index }, store,
        [deletePrompt q])
  | .confirmDelete =>
    match ud.deleting_index with
    | some index =>
      if index < questions.length then
        let deleted := questions.getD index ""
        let qs1 := questions.eraseIdx index
        let res := save_questions store qs1
        if res.1 then
          .ok (EDIT_QUESTIONS, ud, res.2, [MSG_DELETED deleted, MSG_MGMT_MENU])
        else
          .ok (EDIT_QUESTIONS, ud, res.2, [MSG_DELETE_FAILED, MSG_MGMT_MENU])
      else
        .ok (EDIT_QUESTIONS, ud, store, [MSG_INVALID_SELECTION, MSG_MGMT_MENU])
    | none =>
      .ok (EDIT_QUESTIONS, ud, store, [MSG_INVALID_SELECTION, MSG_MGMT_MENU])
  | .cancelDelete =>
    .ok (EDIT_QUESTIONS, ud, store, [MSG_CANCELLED, MSG_MGMT_MENU])
  | .cancelEdit =>
    .ok (EDIT_QUESTIONS, ud, store, [MSG_CANCELLED, MSG_MGMT_MENU])

/-- Reply confirming a question was added. -/
def MSG_ADDED : String := "✅ አዲስ ጥያቄ ታክሏል!"

/-- Reply for a failed save while adding. -/
def MSG_ADD_FAILED : String := "❌ ጥያቄ ሲጨመር ስህተት ተፈጥሯል!"

/-- Reply confirming an edit, echoing old and new text. -/
def MSG_EDITED (old new : String) : String :=
  "✅ ጥያቄ ተቀይሯል!\n\nከ: " ++ old ++ "\nወደ: " ++ new

/-- Reply for a failed save while editing. -/
def MSG_EDIT_FAILED : String := "❌ ጥያቄ ሲቀየር ስህተት ተፈጥሯል!"

/-- Embedding of `AdminBot.handle_new_question`: consume the next text
message as the new (added or replacement) question, save the whole list
back, clear the editing fields and return to the management menu.  The
handler never consults the allow-list; `user` is received but unused. -/
def handle_new_question (store : QuestionsCol) (user : TgUser)
    (ud : AUserData) (text : String) :
    Nat × AUserData × QuestionsCol × List String :=
  let questions := aload_questions store
  let cleared : AUserData := {}
  match ud.editing_mode with
  | some m =>
    if m == "add" then
      let res := save_questions store (questions ++ [text])
      (EDIT_QUESTIONS, cleared, res.2,
        [(if res.1 then MSG_ADDED else MSG_ADD_FAILED), MSG_MGMT_MENU])
    else if m == "edit" then
      match ud.editing_index with
      | some index =>
        if index < questions.length then
          let old := questions.getD index ""
          let res := save_questions store (questions.set index text)
          (EDIT_QUESTIONS, cleared, res.2,
            [(if res.1 then MSG_EDITED old text else MSG_EDIT_FAILED),
              MSG_MGMT_MENU])
        else
          (EDIT_QUESTIONS, cleared, store,
            [MSG_INVALID_SELECTION, MSG_MGMT_MENU])
      | none =>
        (EDIT_QUESTIONS, cleared, store,
          [MSG_INVALID_SELECTION, MSG_MGMT_MENU])
    else (EDIT_QUESTIONS, cleared, store, [MSG_MGMT_MENU])
  | none => (EDIT_QUESTIONS, cleared, store, [MSG_MGMT_MENU])

/-- Menu label for the data export action. -/
def LABEL_DOWNLOAD : String := "📊 መረጃ ለማውረድ"

/-- Menu label for question management. -/
def LABEL_EDIT : String := "❓ ጥያቄዎችን ለማሻሻል"

/-- Menu label for statistics. -/
def LABEL_STATS : String := "📊 የመረጃ ስታቲስቲክስ"

/-- Admin panel menu text. -/
def MSG_PANEL : String := "🔧 የአስተዳዳሪ ፓነል\n\nየሚከተሉትን ለመምረጥ ይችላሉ:"

/-- Reply when the export produced no file. -/
def MSG_NO_DATA : String := "❌ አሁን ምንም መረጃ አልተገኘም!"

/-- Reply when the statistics dataframe is empty. -/
def MSG_NO_STATS_DATA : String := "❌ አስካሁን ምንም መረጃ አልተሰበሰበም!"

/-- Outbound effect of an admin panel invocation. -/
inductive Reply where
  | text (s : String)
  | document
deriving DecidableEq, Repr

/-- Embedding of `AdminBot.admin_panel`.  The external effects of the
export and statistics branches are passed in as parameters
(`exportFile` is the result of sheet_to_excel_local, `dfEmpty` whether
the fetched dataframe was empty, `statsText` the rendered statistics);
the claims about this handler concern only its authorization guard and
its state transitions, which are embedded exactly. -/
def admin_panel (adminFile : Option AdminData) (user : TgUser)
    (command : String) (exportFile : Option Unit) (dfEmpty : Bool)
    (statsText : String) : Nat × List Reply :=
  if ¬ is_user_admin adminFile user then (AUTHENTICATE, [.text MSG_NOT_ADMIN])
  else if command == LABEL_DOWNLOAD then
    match exportFile with
    | none => (ADMIN_MENU, [.text MSG_NO_DATA])
    | some _ => (ADMIN_MENU, [.document])
  else if command == LABEL_EDIT then (EDIT_QUESTIONS, [.text MSG_MGMT_MENU])
  else if command == LABEL_STATS then
    (ADMIN_MENU, [.text (if dfEmpty then MSG_NO_STATS_DATA else statsText)])
  else (ADMIN_MENU, [.text MSG_PANEL])

/-- Menu label to view all questions. -/
def LABEL_VIEW : String := "👀 ጥያቄዎችን ለመመልከት"

/-- Menu label to add a question. -/
def LABEL_ADD : String := "➕ ጥያቄ ለመጨመር"

/-- Menu label to edit a question. -/
def LABEL_EDIT_Q : String := "✏️ ጥያቄ ለመቀየር"

/-- Menu label to delete a question. -/
def LABEL_DELETE_Q : String := "🗑️ ጥያቄ ለመሰረዝ"

/-- Menu label to go back to the admin menu. -/
def LABEL_BACK : String := "↩️ ወደ ኋላ"

/-- Admin-bot reply when the question list is empty. -/
def MSG_NO_QUESTIONS_A : String := "❌ ምንም ጥያቄዎች አልተገኙም!"

/-- Reply for an unrecognised management option. -/
def MSG_UNKNOWN_OPTION : String := "❗ የመረጡት አማራጭ አይታወቅም።"

/-- Prompt for the text of a brand new question. -/
def MSG_ADD_PROMPT : String := "➕ አዲስ ጥያቄ ለመጨመር\n\nእባክዎ አዲሱን ጥያቄ ያስገቡ:"

/-- Prompt to pick a question to edit. -/
def MSG_EDIT_PICK : String := "✏️ ጥያቄ ለመቀየር\n\nለመቀየር የሚፈልጉትን ጥያቄ ይምረጡ:"

/-- Prompt to pick a question to delete. -/
def MSG_DELETE_PICK : String := "🗑️ ጥያቄ ለመሰረዝ\n\nለመሰረዝ የሚፈልጉትን ጥያቄ ይምረጡ:"

/-- Rendered listing of all questions, one numbered line each. -/
def viewText (questions : List String) : String :=
  "📋 ሁሉም ጥያቄዎች:\n\n" ++
    String.join (questions.enum.map
      (fun p => toString (p.1 + 1) ++ ". " ++ p.2 ++ "\n"))

/-- Embedding of `AdminBot.edit_questions`: dispatch on the management
menu labels.  No branch mutates the question store; add enters the
modal NEW_QUESTION state. -/
def edit_questions (adminFile : Option AdminData) (store : QuestionsCol)
    (user : TgUser) (ud : AUserData) (command : String) :
    Nat × AUserData × List String :=
  if ¬ is_user_admin adminFile user then (AUTHENTICATE, ud, [MSG_NOT_ADMIN])
  else
    let questions := aload_questions store
    if command == LABEL_VIEW then
      (EDIT_QUESTIONS, ud,
        [if questions.isEmpty then MSG_NO_QUESTIONS_A else viewText questions])
    else if command == LABEL_ADD then
      (NEW_QUESTION, { ud with editing_mode := some "add" }, [MSG_ADD_PROMPT])
    else if command == LABEL_EDIT_Q then
      if questions.isEmpty then (EDIT_QUESTIONS, ud, [MSG_NO_QUESTIONS_A])
      else (EDIT_QUESTIONS, ud, [MSG_EDIT_PICK])
    else if command == LABEL_DELETE_Q then
      if questions.isEmpty then (EDIT_QUESTIONS, ud, [MSG_NO_QUESTIONS_A])
      else (EDIT_QUESTIONS, ud, [MSG_DELETE_PICK])
    else if command == LABEL_BACK then (ADMIN_MENU, ud, [MSG_PANEL])
    else (EDIT_QUESTIONS, ud, [MSG_UNKNOWN_OPTION])

/-! Theorems about the survey bot. -/

/-- C7 counterexample: on an input outside the rating alphabet the
handler sends only the fixed rejection text — the current question
(question 1, text A here) is not re-rendered in any reply, refuting
the claim that the current question is re-rendered. -/
theorem C7_counterexample :
    (handle_rating (some ["A"]) "hello" {} [] "T").2.2.2 =
      [MSG_INVALID_RATING] ∧
    renderQuestion 0 "A" ∉ (handle_rating (some ["A"]) "hello" {} [] "T").2.2.2 := by
  decide

/-- C7 (amended): while in the rating state, an input whose stripped
text is outside the 5-symbol rating alphabet leaves the session data
unchanged (no rating recorded, the question index does not advance),
leaves the submission log untouched, keeps the conversation in the
rating state, and sends only the fixed rejection reply; the current
question text is not re-sent. -/
theorem C7_invalid_rating_rejected (file : Option (List String))
    (text : String) (ud : UserData) (sheet : List Row) (ts : String)
    (h : RATING_EMOJIS.contains (pyStrip text) = false) :
    handle_rating file text ud sheet ts =
      (.ratings, ud, sheet, [MSG_INVALID_RATING]) := by
  have h' : pyStrip text ∉ RATING_EMOJIS := by simpa using h
  simp [handle_rating, h']

/-- Witness for C7: the concrete invalid input hello. -/
theorem C7_invalid_rating_rejected_witness :
    RATING_EMOJIS.contains (pyStrip "hello") = false ∧
    handle_rating (some ["A"]) "hello" ({} : UserData) [] "T" =
      (.ratings, {}, [], [MSG_INVALID_RATING]) :=
  ⟨by decide,
    C7_invalid_rating_rejected (some ["A"]) "hello" {} [] "T" (by decide)⟩

/-- C9: the duplicate-submission check fails open — when the
submission-log read raises (modelled by `none`), has_user_submitted
returns false, so even a user whose id already appears in the log is
allowed to start the survey again during a store outage. -/
theorem C9_duplicate_check_fails_open (user_id : String) (sheet : List Row)
    (h : has_user_submitted (some sheet) user_id = true) :
    has_user_submitted none user_id = false ∧
    start none user_id = .enterName user_id :=
  ⟨rfl, by simp [start, has_user_submitted]⟩

/-- Witness for C9: user 7 already present in the log, yet admitted
when the read fails. -/
theorem C9_duplicate_check_fails_open_witness :
    has_user_submitted (some [["UserID"], ["7"]]) "7" = true ∧
    (has_user_submitted none "7" = false ∧
      start none "7" = .enterName "7") :=
  ⟨by decide, C9_duplicate_check_fails_open "7" [["UserID"], ["7"]] (by decide)⟩

/-! Theorems about the admin bot. -/

/-- Decidable equality for handler results that may raise. -/
instance {ε α : Type _} [DecidableEq ε] [DecidableEq α] :
    DecidableEq (Except ε α) := fun x y =>
  match x, y with
  | .error e, .error f =>
    if h : e = f then isTrue (by subst h; rfl)
    else isFalse (by intro hc; cases hc; exact h rfl)
  | .ok a, .ok b =>
    if h : a = b then isTrue (by subst h; rfl)
    else isFalse (by intro hc; cases hc; exact h rfl)
  | .error _, .ok _ => isFalse (by intro hc; cases hc)
  | .ok _, .error _ => isFalse (by intro hc; cases hc)

/-- C2 counterexample: resolving the edit choice to index 1 while the
current question list has a single entry makes the handler raise
(IndexError from the unguarded list indexing) instead of reporting a
user-visible failure. -/
theorem C2_counterexample :
    handle_callback_query (some ["Question", "A"]) ⟨1, none⟩ {}
      (.editToken 1) = .error () := by
  decide

/-- C2 (amended): only the confirm-delete resolution validates the
stored selection index — when it is out of range the handler replies
with the failure text, re-shows the management menu, leaves the store
untouched and raises nothing; the edit- and delete-selection
resolutions index the current list unguarded and raise on an
out-of-range index. -/
theorem C2_stale_index (store : QuestionsCol) (user : TgUser)
    (ud : AUserData) (i : Nat)
    (h : (aload_questions store).length ≤ i) :
    handle_callback_query store user ud (.editToken i) = .error () ∧
    handle_callback_query store user ud (.deleteToken i) = .error () ∧
    (ud.deleting_index = some i →
      handle_callback_query store user ud .confirmDelete =
        .ok (EDIT_QUESTIONS, ud, store,
          [MSG_INVALID_SELECTION, MSG_MGMT_MENU])) := by
  have hget : (aload_questions store)[i]? = none := by
    simp [List.getElem?_eq_none_iff, h]
  refine ⟨?_, ?_, ?_⟩
  · simp [handle_callback_query, hget]
  · simp [handle_callback_query, hget]
  · intro hdel
    simp [handle_callback_query, hdel, Nat.not_lt.mpr h]

/-- Witness for C2: store with one question, stale index 5. -/
theorem C2_stale_index_witness :
    (aload_questions (some ["Question", "A"])).length ≤ 5 ∧
    handle_callback_query (some ["Question", "A"]) ⟨1, none⟩
      { deleting_index := some 5 } (.editToken 5) = .error () ∧
    handle_callback_query (some ["Question", "A"]) ⟨1, none⟩
      { deleting_index := some 5 } (.deleteToken 5) = .error () ∧
    handle_callback_query (some ["Question", "A"]) ⟨1, none⟩
      { deleting_index := some 5 } .confirmDelete =
      .ok (EDIT_QUESTIONS, { deleting_index := some 5 },
        some ["Question", "A"], [MSG_INVALID_SELECTION, MSG_MGMT_MENU]) :=
  have t := C2_stale_index (some ["Question", "A"]) ⟨1, none⟩
    { deleting_index := some 5 } 5 (by decide)
  ⟨by decide, t.1, t.2.1, t.2.2 rfl⟩

/-- C4: evaluation at the failing input.  Deleting index 0 of the
two-question list writes the shortened list back only over rows 1..2,
leaving the old last question behind in row 3, so a subsequent read
still returns two questions (the old last one duplicated) — the
persisted length is not L-1 as the claim (and the spec's overwrite
semantics) require. -/
theorem C4_delete_leaves_stale_row :
    handle_callback_query (some ["Question", "A", "B"]) ⟨1, none⟩
        { deleting_index := some 0 } .confirmDelete =
      .ok (EDIT_QUESTIONS, { deleting_index := some 0 },
        some ["Question", "B", "B"], [MSG_DELETED "A", MSG_MGMT_MENU]) ∧
    aload_questions (some ["Question", "B", "B"]) = ["B", "B"] ∧
    (aload_questions (some ["Question", "B", "B"])).length ≠ 1 := by
  decide

/-- C5 counterexample: with an empty allow-list user 7 is not an
admin, yet the callback handler still performs the deletion and stays
in the question-management flow instead of forcing the authentication
state — the allow-list is not re-checked on this step. -/
theorem C5_counterexample :
    is_user_admin (some { admin_usernames := [], admin_user_ids := [] })
      ⟨7, none⟩ = false ∧
    handle_callback_query (some ["Question", "A", "B"]) ⟨7, none⟩
        { deleting_index := some 0 } .confirmDelete =
      .ok (EDIT_QUESTIONS, { deleting_index := some 0 },
        some ["Question", "B", "B"], [MSG_DELETED "A", MSG_MGMT_MENU]) := by
  decide

/-- C5 (amended): the message handlers admin_panel and edit_questions
re-check the allow-list on every invocation and, for a
non-allow-listed user, reply with the denial text and force the
AUTHENTICATE state with no further action; but handle_callback_query
and handle_new_question never consult the allow-list — their behaviour,
including question-store mutations, is identical for every invoking
user. -/
theorem C5_reauth_only_in_message_handlers (adminFile : Option AdminData)
    (store : QuestionsCol) (u u1 u2 : TgUser) (ud : AUserData)
    (command text : String) (exportFile : Option Unit) (dfEmpty : Bool)
    (statsText : String) (data : CallbackData)
    (h : is_user_admin adminFile u = false) :
    admin_panel adminFile u command exportFile dfEmpty statsText =
      (AUTHENTICATE, [.text MSG_NOT_ADMIN]) ∧
    edit_questions adminFile store u ud command =
      (AUTHENTICATE, ud, [MSG_NOT_ADMIN]) ∧
    handle_callback_query store u1 ud data =
      handle_callback_query store u2 ud data ∧
    handle_new_question store u1 ud text =
      handle_new_question store u2 ud text := by
  refine ⟨by simp [admin_panel, h], by simp [edit_questions, h], rfl, rfl⟩

/-- Witness for C5: empty allow-list, users 7 and 8. -/
theorem C5_reauth_only_in_message_handlers_witness :
    is_user_admin (some { admin_usernames := [], admin_user_ids := [] })
      ⟨7, none⟩ = false ∧
    (admin_panel (some { admin_usernames := [], admin_user_ids := [] })
        ⟨7, none⟩ "x" none true "s" = (AUTHENTICATE, [.text MSG_NOT_ADMIN]) ∧
      edit_questions (some { admin_usernames := [], admin_user_ids := [] })
        (some ["Question", "A"]) ⟨7, none⟩ {} "x" =
          (AUTHENTICATE, {}, [MSG_NOT_ADMIN]) ∧
      handle_callback_query (some ["Question", "A"]) ⟨7, none⟩ {}
          .cancelEdit =
        handle_callback_query (some ["Question", "A"]) ⟨8, none⟩ {}
          .cancelEdit ∧
      handle_new_question (some ["Question", "A"]) ⟨7, none⟩ {} "t" =
        handle_new_question (some ["Question", "A"]) ⟨8, none⟩ {} "t") :=
  ⟨by decide,
    C5_reauth_only_in_message_handlers
      (some { admin_usernames := [], admin_user_ids := [] })
      (some ["Question", "A"]) ⟨7, none⟩ ⟨7, none⟩ ⟨8, none⟩ {} "x" "t"
      none true "s" .cancelEdit (by decide)⟩

/-- C6 counterexample: with row 1 equal to [UserID, garbage] — which
is not the expected header tuple — no header is inserted, because the
code compares only the first cell against the literal UserID; after the
append, row 1 still differs from the expected header tuple. -/
theorem C6_counterexample :
    append_to_sheet (some ["q1"]) "7" { name := "n", phone := "p" } [3] "T"
        [["UserID", "garbage"]] =
      [["UserID", "garbage"], ["7", "n", "p", "T", "3"]] ∧
    ["UserID", "garbage"] ≠
      expected_headers (load_questions (some ["q1"])).length := by
  decide

/-- C6 (amended): before any append to the submission log only the
first cell of row 1 is compared against the literal UserID.  When it
matches, the sheet is left as it is; when the sheet is empty the full
expected header (its width taken from the local questions file) is
written as the first row; when row 1 exists with a different first
cell, the expected header is inserted as a new row 1 with every
existing data row preserved below it.  In every case the submission
row is appended at the end.  (The hypothesis excludes the degenerate
sheet whose first row exists but is empty.) -/
theorem C6_header_self_heal (file : Option (List String))
    (user_id : String) (ud : UserData) (ratings : List Nat) (ts : String)
    (sheet : List Row) (hrow : sheet.head? ≠ some []) :
    (sheet = [] →
      append_to_sheet file user_id ud ratings ts sheet =
        [expected_headers (load_questions file).length,
          [user_id, ud.name, ud.phone, ts] ++ ratings.map toString]) ∧
    (∀ r t, sheet = r :: t → r.head? = some "UserID" →
      append_to_sheet file user_id ud ratings ts sheet =
        r :: t ++ [[user_id, ud.name, ud.phone, ts] ++ ratings.map toString]) ∧
    (∀ r t, sheet = r :: t → r.head? ≠ some "UserID" →
      append_to_sheet file user_id ud ratings ts sheet =
        expected_headers (load_questions file).length :: r :: t ++
          [[user_id, ud.name, ud.phone, ts] ++ ratings.map toString]) := by
  refine ⟨?_, ?_, ?_⟩
  · rintro rfl
    simp [append_to_sheet]
  · rintro r t rfl hr
    simp [append_to_sheet, hr]
  · rintro r t rfl hr
    have hne : r ≠ [] := by
      intro hcon
      exact hrow (by simp [hcon])
    simp [append_to_sheet, hr, List.isEmpty_iff, hne]

/-- Witness for C6: an empty sheet and a sheet whose row 1 starts with
a cell other than UserID. -/
theorem C6_header_self_heal_witness :
    (([] : List Row).head? ≠ some []) ∧
    append_to_sheet (some ["q1"]) "7" { name := "n", phone := "p" } [3] "T"
        [] =
      [expected_headers (load_questions (some ["q1"])).length,
        ["7", "n", "p", "T", "3"]] ∧
    append_to_sheet (some ["q1"]) "7" { name := "n", phone := "p" } [3] "T"
        [["x"], ["d1"]] =
      expected_headers (load_questions (some ["q1"])).length :: ["x"] ::
        [["d1"]] ++ [["7", "n", "p", "T", "3"]] :=
  ⟨by decide,
    (C6_header_self_heal (some ["q1"]) "7" { name := "n", phone := "p" }
      [3] "T" [] (by decide)).1 rfl,
    (C6_header_self_heal (some ["q1"]) "7" { name := "n", phone := "p" }
      [3] "T" [["x"], ["d1"]] (by decide)).2.2 ["x"] [["d1"]] rfl (by decide)⟩

/-- C10: the header written by the healing path takes its question
count from the local questions file — its width is 4 plus the local
question count for every input, independent of how many ratings are in
the row being appended (whose width is 4 plus the rating count) — and
the two widths disagree on concrete inputs (3 local questions, 1
rating). -/
theorem C10_header_width_from_local_file :
    (∀ (file : Option (List String)) (user_id : String) (ud : UserData)
        (ratings : List Nat) (ts : String),
      append_to_sheet file user_id ud ratings ts [] =
        [expected_headers (load_questions file).length,
          [user_id, ud.name, ud.phone, ts] ++ ratings.map toString]) ∧
    (∀ n, (expected_headers n).length = 4 + n) ∧
    (∀ (ratings : List Nat) (user_id name phone ts : String),
      ([user_id, name, phone, ts] ++ ratings.map toString).length =
        4 + ratings.length) ∧
    (expected_headers
        (load_questions (some ["a", "b", "c"])).length).length ≠
      (["7", "n", "p", "T"] ++ ([5] : List Nat).map toString).length := by
  refine ⟨?_, ?_, ?_, by decide⟩
  · intro file user_id ud ratings ts
    simp [append_to_sheet]
  · intro n
    simp [expected_headers]
    omega
  · intro ratings user_id name phone ts
    simp
    omega

/-- C3 counterexample: a session that saw a single question at
form-start (the store held just A) would have to submit after its
first rating; but if the store gained a question B after form-start,
the same step instead renders the new question 2 and stays in the
rating state — a store mutation after form-start changed the number
and text of the questions seen by the open session. -/
theorem C3_counterexample :
    (handle_rating (some ["A"]) "😠" { user_id := "7" } [] "T").1 =
      .done ∧
    (handle_rating (some ["A", "B"]) "😠" { user_id := "7" } [] "T").1 =
      .ratings ∧
    (handle_rating (some ["A", "B"]) "😠" { user_id := "7" } [] "T").2.2.2 =
      [renderQuestion 1 "B"] := by
  decide

/-- C3 (amended): the survey engine keeps no snapshot — handle_rating
reloads the question list from the store on every rating step, and
both the completion decision and the next rendered question are taken
from the list loaded at that step. -/
theorem C3_questions_reloaded_each_step (file : Option (List String))
    (text : String) (ud : UserData) (sheet : List Row) (ts : String)
    (h : RATING_EMOJIS.contains (pyStrip text) = true) :
    ((handle_rating file text ud sheet ts).1 = .done ↔
      (load_questions file).length ≤ ud.current_question + 1) ∧
    (ud.current_question + 1 < (load_questions file).length →
      (handle_rating file text ud sheet ts).2.2.2 =
        [renderQuestion (ud.current_question + 1)
          ((load_questions file).getD (ud.current_question + 1) "")]) := by
  have h' : pyStrip text ∈ RATING_EMOJIS := by simpa using h
  constructor
  · by_cases hle : (load_questions file).length ≤ ud.current_question + 1 <;>
      simp [handle_rating, h', hle]
  · intro hlt
    simp [handle_rating, h', Nat.not_le.mpr hlt, List.getD]

/-- Witness for C3: valid input, store holding two questions, session
at index 0. -/
theorem C3_questions_reloaded_each_step_witness :
    RATING_EMOJIS.contains (pyStrip "😠") = true ∧
    ((handle_rating (some ["A", "B"]) "😠" { user_id := "7" } [] "T").1 =
        .done ↔
      (load_questions (some ["A", "B"])).length ≤ 0 + 1) ∧
    (0 + 1 < (load_questions (some ["A", "B"])).length ∧
      (handle_rating (some ["A", "B"]) "😠" { user_id := "7" } [] "T").2.2.2 =
        [renderQuestion (0 + 1) ((load_questions (some ["A", "B"])).getD (0 + 1) "")]) :=
  have t := C3_questions_reloaded_each_step (some ["A", "B"]) "😠"
    { user_id := "7" } [] "T" (by decide)
  ⟨by decide, t.1, by decide, t.2 (by decide)⟩

/-- Helper: add_admin_user only ever extends both membership lists. -/
lemma add_admin_user_superset (file : Option AdminData) (uid : Nat)
    (uname : Option String) :
    (load_admin_users file).admin_user_ids ⊆
      (add_admin_user file uid uname).admin_user_ids ∧
    (load_admin_users file).admin_usernames ⊆
      (add_admin_user file uid uname).admin_usernames := by
  by_cases h1 : uid ∈ (load_admin_users file).admin_user_ids <;>
  cases uname with
  | none => simp [add_admin_user, h1, List.subset_append_left]
  | some u =>
    by_cases h2 : u = "" <;>
    by_cases h3 :
        pyLower u ∈ ((load_admin_users file).admin_usernames.map pyLower) <;>
    simp [add_admin_user, h1, h2, h3, List.subset_append_left]

/-- Helper: after add_admin_user the identifier is a member — the id
always, and the username (up to case) whenever one is present and
non-empty. -/
lemma add_admin_user_mem (file : Option AdminData) (uid : Nat)
    (uname : Option String) :
    uid ∈ (add_admin_user file uid uname).admin_user_ids ∧
    (∀ u, uname = some u → u ≠ "" →
      pyLower u ∈
        ((add_admin_user file uid uname).admin_usernames.map pyLower)) := by
  constructor
  · by_cases h1 : uid ∈ (load_admin_users file).admin_user_ids <;>
    cases uname with
    | none => simp [add_admin_user, h1]
    | some u =>
      by_cases h2 : u = "" <;>
      by_cases h3 :
          pyLower u ∈ ((load_admin_users file).admin_usernames.map pyLower) <;>
      simp [add_admin_user, h1, h2, h3]
  · intro u hu hne
    subst hu
    by_cases h1 : uid ∈ (load_admin_users file).admin_user_ids <;>
    by_cases h3 :
        pyLower u ∈ ((load_admin_users file).admin_usernames.map pyLower) <;>
    simp [add_admin_user, h1, h3, hne]

/-- C8: the allow-list is monotone non-decreasing — every attempt with
the correct shared secret only ever extends it, re-adding an already
present identifier (id present and username present up to case, or
absent) leaves it unchanged, an incorrect attempt leaves it completely
unchanged, and a correct attempt whose file write succeeds does add
the identifier: afterwards the id is a member and so (up to case) is
the username when one is present and non-empty; no path removes a
member. -/
theorem C8_allowlist_monotone (file : Option AdminData) (writeOk : Bool)
    (user : TgUser) (password : String) :
    ((load_admin_users file).admin_user_ids ⊆
        (authenticate file writeOk user password).1.admin_user_ids ∧
      (load_admin_users file).admin_usernames ⊆
        (authenticate file writeOk user password).1.admin_usernames) ∧
    (password ≠ ADMIN_PASSWORD →
      (authenticate file writeOk user password).1 = load_admin_users file) ∧
    ((load_admin_users file).admin_user_ids.contains user.id = true →
      (∀ u, user.username = some u →
        ((load_admin_users file).admin_usernames.map pyLower).contains
          (pyLower u) = true) →
      (authenticate file writeOk user password).1 = load_admin_users file) ∧
    (password = ADMIN_PASSWORD → writeOk = true →
      user.id ∈ (authenticate file writeOk user password).1.admin_user_ids ∧
      (∀ u, user.username = some u → u ≠ "" →
        pyLower u ∈
          ((authenticate file writeOk user password).1.admin_usernames.map
            pyLower))) := by
  refine ⟨?_, ?_, ?_, ?_⟩
  · by_cases hpw : password = ADMIN_PASSWORD
    · cases writeOk
      · simp [authenticate, hpw, List.Subset.refl]
      · simpa [authenticate, hpw] using
          add_admin_user_superset file user.id user.username
    · simp [authenticate, hpw, List.Subset.refl]
  · intro hpw
    simp [authenticate, hpw]
  · intro hid huser
    have hadd : add_admin_user file user.id user.username =
        load_admin_users file := by
      have hid' : user.id ∈ (load_admin_users file).admin_user_ids := by
        simpa using hid
      cases hu : user.username with
      | none => simp [add_admin_user, hid']
      | some u =>
        have h3 : pyLower u ∈
            ((load_admin_users file).admin_usernames.map pyLower) := by
          simpa using huser u hu
        simp [add_admin_user, hid', h3]
    by_cases hpw : password = ADMIN_PASSWORD <;> cases writeOk <;>
      simp [authenticate, hpw, hadd]
  · intro hpw hw
    subst hpw
    subst hw
    simpa [authenticate] using add_admin_user_mem file user.id user.username

/-- Witness for C8: a wrong attempt and a correct re-authentication by
an existing member (id 5, username Bob) both leave the allow-list
unchanged, and a correct first authentication against the empty
allow-list admits the new member by id and username. -/
theorem C8_allowlist_monotone_witness :
    ("nope" ≠ ADMIN_PASSWORD) ∧
    (authenticate (some { admin_usernames := ["Bob"], admin_user_ids := [5] })
        true ⟨5, some "BOB"⟩ "nope").1 =
      load_admin_users
        (some { admin_usernames := ["Bob"], admin_user_ids := [5] }) ∧
    (authenticate (some { admin_usernames := ["Bob"], admin_user_ids := [5] })
        true ⟨5, some "BOB"⟩ ADMIN_PASSWORD).1 =
      load_admin_users
        (some { admin_usernames := ["Bob"], admin_user_ids := [5] }) ∧
    (5 ∈ (authenticate (some { admin_usernames := [], admin_user_ids := [] })
        true ⟨5, some "Bob"⟩ ADMIN_PASSWORD).1.admin_user_ids ∧
      pyLower "Bob" ∈
        ((authenticate (some { admin_usernames := [], admin_user_ids := [] })
          true ⟨5, some "Bob"⟩ ADMIN_PASSWORD).1.admin_usernames.map
            pyLower)) :=
  have t4 := (C8_allowlist_monotone
    (some { admin_usernames := [], admin_user_ids := [] }) true
    ⟨5, some "Bob"⟩ ADMIN_PASSWORD).2.2.2 rfl rfl
  ⟨by decide,
    (C8_allowlist_monotone
      (some { admin_usernames := ["Bob"], admin_user_ids := [5] }) true
      ⟨5, some "BOB"⟩ "nope").2.1 (by decide),
    (C8_allowlist_monotone
      (some { admin_usernames := ["Bob"], admin_user_ids := [5] }) true
      ⟨5, some "BOB"⟩ ADMIN_PASSWORD).2.2.1 (by decide)
      (fun u hu => by cases hu; decide),
    t4.1, t4.2 "Bob" rfl (by decide)⟩

/-- Helper: the duplicate check finds the submitting user id in the
log produced by append_to_sheet, for any initial sheet whose first
row, if present, is non-empty. -/
lemma has_user_submitted_append (file : Option (List String))
    (uid : String) (ud : UserData) (ratings : List Nat) (ts : String)
    (sheet : List Row) (hrow : sheet.head? ≠ some []) :
    has_user_submitted
      (some (append_to_sheet file uid ud ratings ts sheet)) uid = true := by
  cases sheet with
  | nil =>
    simp [append_to_sheet, has_user_submitted, expected_headers, recordGet]
  | cons r t =>
    by_cases hr : r.head? = some "UserID"
    · obtain ⟨c, r', rfl⟩ : ∃ c r', r = c :: r' := by
        cases r with
        | nil => simp at hr
        | cons c r' => exact ⟨c, r', rfl⟩
      simp only [List.head?_cons, Option.some.injEq] at hr
      subst hr
      simp [append_to_sheet, has_user_submitted, recordGet]
    · have hne : r ≠ [] := fun hcon => hrow (by simp [hcon])
      simp [append_to_sheet, hr, hne, has_user_submitted,
        expected_headers, recordGet]

/-- Helper: from any point in the rating state, feeding exactly the
remaining number of valid inputs (with the question store constant)
completes the survey with a single append of the accumulated ratings,
clearing the session. -/
lemma runRatings_completes (file : Option (List String)) (ts : String) :
    ∀ (inputs : List String) (ud : UserData) (sheet : List Row),
      (∀ s ∈ inputs, s ∈ RATING_EMOJIS) → inputs ≠ [] →
      ud.current_question + inputs.length = (load_questions file).length →
      runRatings file ts inputs ud sheet =
        (.done, {},
          append_to_sheet file ud.user_id ud
            (ud.ratings ++ inputs.map ratingOf) ts sheet) := by
  intro inputs
  induction inputs with
  | nil => intro ud sheet _ hne _; exact absurd rfl hne
  | cons i rest ih =>
    intro ud sheet hval hne hcount
    have hmem : i ∈ RATING_EMOJIS := hval i (List.mem_cons_self i rest)
    have hmem5 : i = "😠" ∨ i = "😞" ∨ i = "😐" ∨ i = "🙂" ∨ i = "😄" := by
      simpa [RATING_EMOJIS] using hmem
    have hstrip : pyStrip i = i := by
      rcases hmem5 with rfl | rfl | rfl | rfl | rfl <;> rfl
    have hmem' : pyStrip i ∈ RATING_EMOJIS := by rw [hstrip]; exact hmem
    cases rest with
    | nil =>
      have hle : (load_questions file).length ≤ ud.current_question + 1 := by
        simp only [List.length_cons, List.length_nil] at hcount
        omega
      simp [runRatings, handle_rating, hmem, hmem', hle, ratingOf, hstrip,
        append_to_sheet]
    | cons j rest' =>
      have hlt : ud.current_question + 1 < (load_questions file).length := by
        simp only [List.length_cons] at hcount
        omega
      have hstep : handle_rating file i ud sheet ts =
          (.ratings,
            { ud with
                ratings := ud.ratings ++ [RATING_EMOJIS.indexOf i + 1],
                current_question := ud.current_question + 1 },
            sheet,
            [renderQuestion (ud.current_question + 1)
              ((load_questions file).getD (ud.current_question + 1) "")]) := by
        simp [handle_rating, hmem, hmem', hstrip, Nat.not_le.mpr hlt,
          List.getD]
      have hrec := ih
        { ud with
            ratings := ud.ratings ++ [RATING_EMOJIS.indexOf i + 1],
            current_question := ud.current_question + 1 }
        sheet
        (fun s hs => hval s (List.mem_cons_of_mem i hs))
        (List.cons_ne_nil j rest')
        (by
          simp only [List.length_cons] at hcount ⊢
          omega)
      simp only [runRatings, hstep]
      simp only [runRatings] at hrec
      rw [hrec]
      simp [append_to_sheet, ratingOf, hstrip, List.append_assoc]

/-- C1: a survey session in the first rating state (index 0, no
ratings collected yet), fed exactly N valid rating inputs where N is
the question count (constant over the session), appends exactly one
submission row — identity fields, the timestamp, and the N rating
values in question order — ends the conversation with the session
cleared, and a subsequent /start by the same user id, re-reading the
updated log, is refused before entering any state. -/
theorem C1_full_survey_once (file : Option (List String)) (ts : String)
    (inputs : List String) (ud : UserData) (sheet : List Row)
    (hval : ∀ s ∈ inputs, s ∈ RATING_EMOJIS)
    (hlen : inputs.length = (load_questions file).length)
    (hne : inputs ≠ [])
    (hq : ud.current_question = 0) (hr : ud.ratings = [])
    (hrow : sheet.head? ≠ some []) :
    runRatings file ts inputs ud sheet =
      (.done, {},
        append_to_sheet file ud.user_id ud (inputs.map ratingOf) ts sheet) ∧
    start (some (runRatings file ts inputs ud sheet).2.2) ud.user_id =
      .refuse := by
  have hrun := runRatings_completes file ts inputs ud sheet hval hne
    (by omega)
  rw [hr, List.nil_append] at hrun
  refine ⟨hrun, ?_⟩
  rw [hrun]
  have hsub := has_user_submitted_append file ud.user_id ud
    (inputs.map ratingOf) ts sheet hrow
  simp [start, hsub]

/-- Witness for C1: two questions, two valid ratings, empty initial
log; the run appends one row and the subsequent start is refused. -/
theorem C1_full_survey_once_witness :
    (∀ s ∈ (["😠", "😄"] : List String), s ∈ RATING_EMOJIS) ∧
    (runRatings (some ["A", "B"]) "T" ["😠", "😄"]
        { user_id := "42", name := "n", phone := "p" } [] =
      (.done, {},
        append_to_sheet (some ["A", "B"]) "42"
          { user_id := "42", name := "n", phone := "p" }
          (["😠", "😄"].map ratingOf) "T" []) ∧
      start (some (runRatings (some ["A", "B"]) "T" ["😠", "😄"]
          { user_id := "42", name := "n", phone := "p" } []).2.2) "42" =
        .refuse) :=
  ⟨by decide,
    C1_full_survey_once (some ["A", "B"]) "T" ["😠", "😄"]
      { user_id := "42", name := "n", phone := "p" } [] (by decide)
      (by decide) (by decide) rfl rfl (by decide)⟩

end TelegramBot
